import Mathlib

/-!
Verification of the contract-generation and lifecycle core of the
smart-contract-generator backend.  The Python sources under
`backend/` are shallowly embedded below: pure string manipulation is
modelled on `List Char`, the persistent record store as a function
`Nat → Option Contract`, and the two external stdlib collaborators
(`json.loads` / `json.dumps`) as explicit function parameters, with a
concrete executable JSON parser (`jsonParse`) used to instantiate them
on concrete inputs.
-/

/-! ## Python string primitives (str.strip, str.find, str.rfind, slicing) -/

/-- Whitespace recognised by Python's `str.strip()` (ASCII fragment). -/
def isSpaceChar (c : Char) : Bool :=
  [' ', '\t', '\n', '\r', '\x0b', '\x0c'].contains c

def trimLeft (l : List Char) : List Char := l.dropWhile isSpaceChar

def trimRight (l : List Char) : List Char := (l.reverse.dropWhile isSpaceChar).reverse

/-- Python `str.strip()` on a character list. -/
def pyStrip (l : List Char) : List Char := trimRight (trimLeft l)

/-- Python `str.find(sub)`: index of the first occurrence, `none` when absent. -/
def pyFind : List Char → List Char → Option Nat
  | [], sub => if sub.isPrefixOf ([] : List Char) then some 0 else none
  | c :: t, sub => if sub.isPrefixOf (c :: t) then some 0 else (pyFind t sub).map (· + 1)

/-- Python `str.find(sub, start)`. -/
def pyFindFrom (l sub : List Char) (start : Nat) : Option Nat :=
  (pyFind (l.drop start) sub).map (· + start)

/-- Python `str.rfind(sub)`: index of the last occurrence, `none` when absent. -/
def pyRFind (l sub : List Char) : Option Nat :=
  (pyFind l.reverse sub.reverse).map (fun i => l.length - sub.length - i)

/-- Python `str.find` result as the int the source manipulates (−1 when absent). -/
def pyFindInt (l sub : List Char) : Int :=
  match pyFind l sub with
  | some i => (i : Int)
  | none => -1

def pyFindFromInt (l sub : List Char) (start : Nat) : Int :=
  match pyFindFrom l sub start with
  | some i => (i : Int)
  | none => -1

def pyRFindInt (l sub : List Char) : Int :=
  match pyRFind l sub with
  | some i => (i : Int)
  | none => -1

/-- Python index normalization for slicing: negative indices count from the
end, nonnegative ones are clamped to the length. -/
def sliceIdx (l : List Char) (x : Int) : Nat :=
  if x < 0 then ((l.length : Int) + x).toNat else min x.toNat l.length

/-- Python slicing `l[a:b]` with negative-index and clamping semantics. -/
def pySlice (l : List Char) (a b : Int) : List Char :=
  (l.drop (sliceIdx l a)).take (sliceIdx l b - sliceIdx l a)

/-- Python `str.lower()` on an ASCII character. -/
def lowerChar (c : Char) : Char :=
  if 'A' ≤ c && c ≤ 'Z' then Char.ofNat (c.toNat + 32) else c

def lowerStr (s : String) : String := String.mk (s.data.map lowerChar)

/-- Python `str.upper()` on an ASCII character. -/
def upperChar (c : Char) : Char :=
  if 'a' ≤ c && c ≤ 'z' then Char.ofNat (c.toNat - 32) else c

def upperStr (s : String) : String := String.mk (s.data.map upperChar)

/-- Python `", ".join(xs)`. -/
def joinSep (sep : String) : List String → String
  | [] => ""
  | [x] => x
  | x :: y :: t => x ++ sep ++ joinSep sep (y :: t)

/-! ## JSON values and a model of the `json.loads` collaborator -/

/-- Structured data as produced by Python's `json` module. -/
inductive Json where
  | jnull : Json
  | jbool (b : Bool) : Json
  | jnum (n : Int) : Json
  | jstr (s : String) : Json
  | jarr (elements : List Json) : Json
  | jobj (fields : List (String × Json)) : Json

/-- Key lookup in a parsed object (keys are distinct in `json.loads` output). -/
def jsonLookup : List (String × Json) → String → Option Json
  | [], _ => none
  | (k, v) :: t, key => if k = key then some v else jsonLookup t key

/-- Key membership test, Python's `key in dict`. -/
def hasKey (fields : List (String × Json)) (key : String) : Bool :=
  fields.any (fun kv => kv.1 == key)

def jsonWsChar (c : Char) : Bool := [' ', '\t', '\n', '\r'].contains c

def wsDrop (l : List Char) : List Char := l.dropWhile jsonWsChar

/-- The two-character string escapes of the JSON grammar, as source/result
pairs. -/
def escapePairs : List (Char × Char) :=
  [('"', '"'), ('\\', '\\'), ('/', '/'), ('n', '\n'), ('t', '\t'), ('r', '\r'),
    ('b', '\x08'), ('f', '\x0c')]

def unescapeChar (c : Char) : Option Char :=
  (escapePairs.find? (fun q => q.1 == c)).map Prod.snd

/-- Body of a JSON string literal after the opening quote. -/
def parseStrBody : List Char → Option (List Char × List Char)
  | [] => none
  | '"' :: rest => some ([], rest)
  | '\\' :: c :: rest =>
    match unescapeChar c with
    | some d => (parseStrBody rest).map (fun p => (d :: p.1, p.2))
    | none => none
  | c :: rest => (parseStrBody rest).map (fun p => (c :: p.1, p.2))

def digitsToNat (ds : List Char) : Nat :=
  ds.foldl (fun acc c => acc * 10 + (c.toNat - 48)) 0

mutual

/-- Recursive-descent JSON reader, modelling the `json.loads` collaborator on
the integer/string/array/object fragment used by this system (fuelled for
termination; `jsonParse` supplies enough fuel for its whole input). -/
def parseVal : Nat → List Char → Option (Json × List Char)
  | 0, _ => none
  | Nat.succ fuel, l =>
    match wsDrop l with
    | [] => none
    | '\x7b' :: rest => parseObjFields fuel (wsDrop rest) []
    | '[' :: rest => parseArrElems fuel (wsDrop rest) []
    | '"' :: rest => (parseStrBody rest).map (fun p => (Json.jstr (String.mk p.1), p.2))
    | 't' :: 'r' :: 'u' :: 'e' :: rest => some (Json.jbool true, rest)
    | 'f' :: 'a' :: 'l' :: 's' :: 'e' :: rest => some (Json.jbool false, rest)
    | 'n' :: 'u' :: 'l' :: 'l' :: rest => some (Json.jnull, rest)
    | '-' :: rest =>
      (match rest.span Char.isDigit with
       | ([], _) => none
       | (d :: ds, r) => some (Json.jnum (-(digitsToNat (d :: ds) : Int)), r))
    | c :: rest =>
      (match (c :: rest).span Char.isDigit with
       | ([], _) => none
       | (d :: ds, r) => some (Json.jnum ((digitsToNat (d :: ds) : Int)), r))

def parseObjFields : Nat → List Char → List (String × Json) → Option (Json × List Char)
  | 0, _, _ => none
  | Nat.succ fuel, l, acc =>
    match l with
    | '\x7d' :: rest => some (Json.jobj acc.reverse, rest)
    | '"' :: rest =>
      (match parseStrBody rest with
       | none => none
       | some (key, r1) =>
         match wsDrop r1 with
         | ':' :: r2 =>
           (match parseVal fuel (wsDrop r2) with
            | none => none
            | some (v, r3) =>
              match wsDrop r3 with
              | ',' :: r4 => parseObjFields fuel (wsDrop r4) ((String.mk key, v) :: acc)
              | '\x7d' :: r4 => some (Json.jobj ((String.mk key, v) :: acc).reverse, r4)
              | _ => none)
         | _ => none)
    | _ => none

def parseArrElems : Nat → List Char → List Json → Option (Json × List Char)
  | 0, _, _ => none
  | Nat.succ fuel, l, acc =>
    match l with
    | ']' :: rest => some (Json.jarr acc.reverse, rest)
    | _ =>
      match parseVal fuel l with
      | none => none
      | some (v, r1) =>
        match wsDrop r1 with
        | ',' :: r2 => parseArrElems fuel (wsDrop r2) (v :: acc)
        | ']' :: r2 => some (Json.jarr (v :: acc).reverse, r2)
        | _ => none

end

/-- Model of `json.loads`: parse a complete value, requiring full consumption. -/
def jsonParse (s : String) : Option Json :=
  match parseVal (s.length + 1) s.data with
  | some (j, rest) => if wsDrop rest = [] then some j else none
  | none => none

/-! ## GeminiClient._parse_response (backend/services/gemini_client.py) -/

def btick : Char := '\x60'

/-- The fence marker "three backticks". -/
def ticks : List Char := [btick, btick, btick]

/-- The JSON-tagged fence opener. -/
def tickJson : List Char := ticks ++ ['j', 's', 'o', 'n']

/-- Candidate-extraction step of `_parse_response` lines 125-136: trim, then
strip a JSON-tagged fence, else any fence, else take the whole text. -/
def extractCandidate (raw : List Char) : List Char :=
  if (pyFind (pyStrip raw) tickJson).isSome then
    pyStrip (pySlice (pyStrip raw) ((pyFindInt (pyStrip raw) tickJson + 7).toNat : Int)
      (pyFindFromInt (pyStrip raw) ticks (pyFindInt (pyStrip raw) tickJson + 7).toNat))
  else if (pyFind (pyStrip raw) ticks).isSome then
    pyStrip (pySlice (pyStrip raw) ((pyFindInt (pyStrip raw) ticks + 3).toNat : Int)
      (pyRFindInt (pyStrip raw) ticks))
  else pyStrip raw

/-- Outcome of `_parse_response`: a returned dict, or a raised exception. -/
inductive ParseOutcome where
  | success (result : Json) : ParseOutcome
  | failure (message : String) : ParseOutcome

def requiredArtifactFields : List String :=
  ["solidity_code", "deploy_script", "tests", "metadata"]

def firstMissingField (fields : List (String × Json)) : Option String :=
  requiredArtifactFields.find? (fun f => !(hasKey fields f))

/-- Message wrapper of the final `except Exception` re-raise. -/
def parseFailMsg (e : String) : String :=
  "Failed to parse contract generation response: " ++ e

/-- Validation step of `_parse_response` lines 141-152.  For a result that is
not a key/value object the Python membership/subscript operations raise a
`TypeError`/`ValueError`; only the failure kind is observable, so those
messages are abstracted by a fixed text. -/
def validateParsed (j : Json) : ParseOutcome :=
  match j with
  | Json.jobj fields =>
    match firstMissingField fields with
    | some f => ParseOutcome.failure (parseFailMsg ("Missing required field: " ++ f))
    | none =>
      match jsonLookup fields "metadata" with
      | some (Json.jobj _) => ParseOutcome.success (Json.jobj fields)
      | _ => ParseOutcome.failure (parseFailMsg "Metadata must be a dictionary")
  | _ => ParseOutcome.failure (parseFailMsg "result is not a key-value object")

def fallbackSolidityCode : String :=
  "// SPDX-License-Identifier: MIT\npragma solidity ^0.8.19;\n\n/**\n * @title BasicContract\n * @dev A basic smart contract template\n */\ncontract BasicContract \x7b\n    address public owner;\n    \n    constructor() \x7b\n        owner = msg.sender;\n    \x7d\n    \n    modifier onlyOwner() \x7b\n        require(msg.sender == owner, \"Not authorized\");\n        _;\n    \x7d\n    \n    function updateOwner(address newOwner) external onlyOwner \x7b\n        require(newOwner != address(0), \"Invalid address\");\n        owner = newOwner;\n    \x7d\n\x7d"

def fallbackDeployScript : String :=
  "const \x7b ethers \x7d = require(\"hardhat\");\n\nasync function main() \x7b\n    const Contract = await ethers.getContractFactory(\"BasicContract\");\n    const contract = await Contract.deploy();\n    await contract.deployed();\n    console.log(\"Contract deployed to:\", contract.address);\n\x7d\n\nmain().catch((error) => \x7b\n    console.error(error);\n    process.exitCode = 1;\n\x7d);"

def fallbackTests : String :=
  "const \x7b expect \x7d = require(\"chai\");\n\ndescribe(\"BasicContract\", function () \x7b\n    it(\"Should deploy successfully\", async function () \x7b\n        const Contract = await ethers.getContractFactory(\"BasicContract\");\n        const contract = await Contract.deploy();\n        expect(contract.address).to.not.equal(0);\n    \x7d);\n\x7d);"

/-- The fixed fallback artifact of `_create_fallback_response` lines 162-221. -/
def fallbackResponse : Json :=
  Json.jobj
    [ ("solidity_code", Json.jstr fallbackSolidityCode),
      ("deploy_script", Json.jstr fallbackDeployScript),
      ("tests", Json.jstr fallbackTests),
      ("metadata", Json.jobj
        [ ("contract_name", Json.jstr "BasicContract"),
          ("compiler_version", Json.jstr "^0.8.19"),
          ("optimization", Json.jbool true),
          ("license", Json.jstr "MIT"),
          ("description", Json.jstr "Basic contract template"),
          ("functions", Json.jarr [Json.jstr "updateOwner"]),
          ("events", Json.jarr []),
          ("security_features", Json.jarr [Json.jstr "onlyOwner modifier"]) ]) ]

/-- `GeminiClient._parse_response`, parametrised by the `json.loads`
collaborator `pj`.  A `json.JSONDecodeError` (`pj` returning `none`) is
answered with the fallback artifact; a successful parse is validated. -/
def parse_response (pj : String → Option Json) (raw : String) : ParseOutcome :=
  match pj (String.mk (extractCandidate raw.data)) with
  | none => ParseOutcome.success fallbackResponse
  | some j => validateParsed j

/-- Contract name recorded in an artifact's metadata. -/
def metaContractName (j : Json) : Option Json :=
  match j with
  | Json.jobj fields =>
    match jsonLookup fields "metadata" with
    | some (Json.jobj ms) => jsonLookup ms "contract_name"
    | _ => none
  | _ => none

/-! ## ContractService.validate_request (backend/services/contract_service.py) -/

/-- A JSON request body with string values, as read by `payload.get`. -/
abbrev Payload := List (String × String)

def pyGet (p : Payload) (k : String) : Option String :=
  match p with
  | [] => none
  | (k', v) :: t => if k' = k then some v else pyGet t k

/-- Python `payload.get(k)` followed by the truthiness default: a missing key
and an empty value are both falsy, written here as `""`. -/
def pyGetD (p : Payload) (k : String) : String := (pyGet p k).getD ""

/-- Generic association-list lookup (Python `dict.get`). -/
def alistGet {β : Type} : List (String × β) → String → Option β
  | [], _ => none
  | (k, v) :: t, key => if k = key then some v else alistGet t key

/-- The part of the loaded legal-rules YAML that `validate_request` consults:
jurisdiction keys with their `required_fields` lists, and contract-type keys. -/
structure RuleSet where
  jurisdictions : List (String × List String)
  contractTypes : List String

def jurisdictionKeys (rules : RuleSet) : List String :=
  rules.jurisdictions.map Prod.fst

/-- Required-fields loop, lines 45-48. -/
def missingFieldErrors (p : Payload) : List String :=
  (if pyGetD p "jurisdiction" = "" then ["Missing required field: jurisdiction"] else []) ++
  (if pyGetD p "contract_type" = "" then ["Missing required field: contract_type"] else []) ++
  (if pyGetD p "requirements" = "" then ["Missing required field: requirements"] else [])

/-- Jurisdiction membership check, lines 51-54: fires only for a truthy value. -/
def jurisdictionErrors (rules : RuleSet) (p : Payload) : List String :=
  let jurisdiction := lowerStr (pyGetD p "jurisdiction")
  if jurisdiction ≠ "" ∧ jurisdiction ∉ jurisdictionKeys rules then
    ["Invalid jurisdiction. Valid options: " ++ joinSep ", " (jurisdictionKeys rules)]
  else []

/-- Contract-type membership check, lines 57-60. -/
def contractTypeErrors (rules : RuleSet) (p : Payload) : List String :=
  let contract_type := lowerStr (pyGetD p "contract_type")
  if contract_type ≠ "" ∧ contract_type ∉ rules.contractTypes then
    ["Invalid contract type. Valid options: " ++ joinSep ", " rules.contractTypes]
  else []

def hexDigits : List Char := "0123456789abcdefABCDEF".data

/-- `ContractService._is_valid_ethereum_address`, lines 83-91. -/
def is_valid_ethereum_address (address : String) : Bool :=
  if address = "" then false
  else
    "0x".data.isPrefixOf address.data && address.length == 42 &&
      (address.data.drop 2).all (fun c => hexDigits.contains c)

/-- Address-format loop, lines 63-66: contributes warnings only. -/
def addressWarnings (p : Payload) : List String :=
  (if pyGetD p "payee_address" ≠ "" ∧ is_valid_ethereum_address (pyGetD p "payee_address") = false then
     ["Invalid Ethereum address format for payee_address"] else []) ++
  (if pyGetD p "payer_address" ≠ "" ∧ is_valid_ethereum_address (pyGetD p "payer_address") = false then
     ["Invalid Ethereum address format for payer_address"] else [])

/-- Jurisdiction-specific required-fields loop, lines 69-75 (the
`jurisdiction` variable of the source is the lowered payload value). -/
def requiredFieldErrors (rules : RuleSet) (p : Payload) : List String :=
  match alistGet rules.jurisdictions (lowerStr (pyGetD p "jurisdiction")) with
  | none => []
  | some required =>
    required.filterMap (fun f =>
      if pyGet p f = none ∨ pyGet p f = some "" then
        some ("Field '" ++ f ++ "' is required for " ++
          upperStr (lowerStr (pyGetD p "jurisdiction")) ++ " jurisdiction")
      else none)

structure ValidationResult where
  valid : Bool
  errors : List String
  warnings : List String

/-- The error list accumulated by `validate_request`, in source order. -/
def validationErrors (rules : RuleSet) (p : Payload) : List String :=
  missingFieldErrors p ++ jurisdictionErrors rules p ++ contractTypeErrors rules p ++
    requiredFieldErrors rules p

/-- `ContractService.validate_request`, lines 31-81: errors and warnings are
separate lists and validity is emptiness of the error list alone. -/
def validate_request (rules : RuleSet) (p : Payload) : ValidationResult :=
  { valid := (validationErrors rules p).isEmpty,
    errors := validationErrors rules p,
    warnings := addressWarnings p }

/-! ## Gas estimation (backend/routes/deploy.py, estimate_gas) -/

/-- The static two-level gas table of lines 143-162 (the per-type `base`
entry lives in the same inner mapping, as in the source). -/
def gasTable : List (String × List (String × Nat)) :=
  [ ("escrow", [("base", 1500000), ("india", 1600000), ("eu", 1700000), ("us", 1650000)]),
    ("insurance", [("base", 2000000), ("india", 2100000), ("eu", 2200000), ("us", 2150000)]),
    ("settlement", [("base", 1800000), ("india", 1900000), ("eu", 2000000), ("us", 1950000)]) ]

/-- Resolution logic of lines 139-166: lowercase both keys, take the type's
`base` (default 1,500,000), then the jurisdiction override (default `base`). -/
def estimate_gas (contractTypeRaw jurisdictionRaw : String) : Nat :=
  let contract_type := lowerStr contractTypeRaw
  let jurisdiction := lowerStr jurisdictionRaw
  let sub := (alistGet gasTable contract_type).getD []
  let base_gas := (alistGet sub "base").getD 1500000
  (alistGet sub jurisdiction).getD base_gas

/-! ## Contract records and the lifecycle state machine -/

/-- The persisted `Contract` row (backend/models.py lines 7-25); timestamps
are abstract ticks, `onupdate` is modelled by the `now` argument of an
update. -/
structure Contract where
  id : Nat
  jurisdiction : Option String
  contract_type : Option String
  requirements : Option String
  description : Option String
  payee_address : Option String
  payer_address : Option String
  solidity_code : String
  deploy_script : String
  tests : String
  contract_metadata : Option String
  status : String
  transaction_hash : Option String
  contract_address : Option String
  created_at : Nat
  updated_at : Nat

/-- Python truthiness of an optional string column or argument. -/
def optTruthy : Option String → Bool
  | some s => s != ""
  | none => false

/-- The four artifact pieces returned by the generation client. -/
structure GenResult where
  solidity_code : String
  deploy_script : String
  tests : String
  metadata : Json

/-- Record construction of `ContractService.generate_contract` lines 113-126:
a fresh record is created in `draft` status with no transaction hash and no
deployed address; `dumps` is the `json.dumps` collaborator. -/
def generate_contract (dumps : Json → String) (p : Payload) (res : GenResult)
    (cid now : Nat) : Contract :=
  { id := cid,
    jurisdiction := pyGet p "jurisdiction",
    contract_type := pyGet p "contract_type",
    requirements := pyGet p "requirements",
    description := pyGet p "description",
    payee_address := pyGet p "payee_address",
    payer_address := pyGet p "payer_address",
    solidity_code := res.solidity_code,
    deploy_script := res.deploy_script,
    tests := res.tests,
    contract_metadata := some (dumps res.metadata),
    status := "draft",
    transaction_hash := none,
    contract_address := none,
    created_at := now,
    updated_at := now }

/-- Record mutation of `ContractService.update_contract_status` lines 195-201:
status is overwritten unconditionally; hash and address only when truthy. -/
def applyStatusUpdate (c : Contract) (status : String)
    (transaction_hash contract_address : Option String) (now : Nat) : Contract :=
  { c with
    status := status,
    transaction_hash := if optTruthy transaction_hash then transaction_hash else c.transaction_hash,
    contract_address := if optTruthy contract_address then contract_address else c.contract_address,
    updated_at := now }

/-- The persistent record store, keyed by integer id. -/
abbrev Store := Nat → Option Contract

/-- `ContractService.update_contract_status`, lines 175-208. -/
def update_contract_status (store : Store) (contract_id : Nat) (status : String)
    (transaction_hash contract_address : Option String) (now : Nat) : Bool × Store :=
  match store contract_id with
  | none => (false, store)
  | some c =>
    (true, fun x =>
      if x = contract_id then some (applyStatusUpdate c status transaction_hash contract_address now)
      else store x)

def validStatuses : List String := ["draft", "deployed", "failed"]

/-- Body of the PUT status route (backend/routes/contracts.py lines 119-148). -/
structure StatusPayload where
  status : Option String
  transaction_hash : Option String
  contract_address : Option String

/-- Route handler `update_contract_status` of backend/routes/contracts.py:
returns the HTTP status code together with the resulting store. -/
def update_contract_status_route (store : Store) (contract_id : Nat)
    (p : StatusPayload) (now : Nat) : Nat × Store :=
  match p.status with
  | none => (400, store)
  | some s =>
    if s = "" then (400, store)
    else if s ∈ validStatuses then
      match update_contract_status store contract_id s p.transaction_hash p.contract_address now with
      | (true, store') => (200, store')
      | (false, store') => (404, store')
    else (400, store)

/-- One route-level status update (status value, optional hash/address, tick). -/
structure UpdateOp where
  status : String
  transaction_hash : Option String
  contract_address : Option String
  now : Nat

/-- Record reached from `c` after a sequence of status-update mutations. -/
def reachAfter (c : Contract) (ops : List UpdateOp) : Contract :=
  ops.foldl
    (fun acc op => applyStatusUpdate acc op.status op.transaction_hash op.contract_address op.now) c

/-! ## ContractService.get_deployment_data (lines 210-247) -/

structure DeploymentData where
  contract_id : Nat
  solidity_code : String
  deploy_script : String
  constructor_params : List String
  metadata : Json
  estimated_gas : Nat
  contract_name : Json

/-- `ContractService.get_deployment_data` on the looked-up record, with `pj`
the `json.loads` collaborator.  A falsy metadata column yields an empty
object; a metadata column that fails to parse, or parses to a non-dict (so
that `metadata.get` raises), is caught by the enclosing `except` which
returns `None`. -/
def get_deployment_data (pj : String → Option Json) (found : Option Contract) :
    Option DeploymentData :=
  match found with
  | none => none
  | some c =>
    match (if optTruthy c.contract_metadata then pj (c.contract_metadata.getD "")
           else some (Json.jobj [])) with
    | some (Json.jobj ms) =>
      some { contract_id := c.id,
             solidity_code := c.solidity_code,
             deploy_script := c.deploy_script,
             constructor_params :=
               (if optTruthy c.payee_address then [c.payee_address.getD ""] else []) ++
               (if optTruthy c.payer_address then [c.payer_address.getD ""] else []),
             metadata := Json.jobj ms,
             estimated_gas := 2000000,
             contract_name := (jsonLookup ms "contract_name").getD (Json.jstr "GeneratedContract") }
    | _ => none

/-! ## Remaining definitions used by the claims -/

/-- Claim-side well-formedness of a parsed generation result: all four
top-level fields present and `metadata` a key/value object. -/
def artifactWellFormed (j : Json) : Bool :=
  match j with
  | Json.jobj fields =>
    requiredArtifactFields.all (fun f => hasKey fields f) &&
      (match jsonLookup fields "metadata" with
       | some (Json.jobj _) => true
       | _ => false)
  | _ => false

/-- A response consisting of a JSON text wrapped in a JSON-tagged fenced
block: three backticks, the tag `json`, a newline, the payload, a newline,
and a closing fence. -/
def wrapFence (J : List Char) : List Char := tickJson ++ '\n' :: (J ++ '\n' :: ticks)

/-- Substring occurrence (Python's `sub in s`). -/
def occursIn (sub l : List Char) : Prop := ∃ a b, l = a ++ sub ++ b

/-- A concrete persisted record used to instantiate theorems. -/
def sampleContract : Contract :=
  { id := 1,
    jurisdiction := some "india",
    contract_type := some "escrow",
    requirements := some "test",
    description := none,
    payee_address := none,
    payer_address := none,
    solidity_code := "code",
    deploy_script := "deploy",
    tests := "tests",
    contract_metadata := some "\x7b\x7d",
    status := "draft",
    transaction_hash := some "0xhash",
    contract_address := none,
    created_at := 0,
    updated_at := 0 }

/-- A concrete record whose stored metadata is not parseable as JSON. -/
def unparseableMetaContract : Contract :=
  { id := 2,
    jurisdiction := some "eu",
    contract_type := some "insurance",
    requirements := some "x",
    description := none,
    payee_address := some "0x1111111111111111111111111111111111111111",
    payer_address := none,
    solidity_code := "code",
    deploy_script := "deploy",
    tests := "tests",
    contract_metadata := some "not json",
    status := "draft",
    transaction_hash := none,
    contract_address := none,
    created_at := 0,
    updated_at := 0 }

/-! ## Claims C2 and C3: response-parser fallback and hard failure -/

/-- Claim C2: for every raw response text whose fence-stripped candidate is
not parseable as JSON, `_parse_response` does not raise; it returns the
fixed fallback artifact, whose metadata names the contract "BasicContract". -/
theorem claim_C2 (pj : String → Option Json) (raw : String)
    (h : pj (String.mk (extractCandidate raw.data)) = none) :
    parse_response pj raw = ParseOutcome.success fallbackResponse ∧
    metaContractName fallbackResponse = some (Json.jstr "BasicContract") := by
  constructor
  · unfold parse_response
    rw [h]
  · rfl

theorem claim_C2_witness :
    jsonParse (String.mk (extractCandidate ("here is your contract").data)) = none ∧
    parse_response jsonParse "here is your contract" = ParseOutcome.success fallbackResponse :=
  ⟨rfl, (claim_C2 jsonParse "here is your contract" rfl).1⟩

/-- Claim C3: for every raw response text whose candidate parses successfully
as JSON but lacks one of the four top-level fields, or whose metadata value
is not a key/value object, `_parse_response` raises a parse error instead of
returning the fallback artifact. -/
theorem claim_C3 (pj : String → Option Json) (raw : String) (j : Json)
    (hp : pj (String.mk (extractCandidate raw.data)) = some j)
    (hbad : artifactWellFormed j = false) :
    ∃ msg, parse_response pj raw = ParseOutcome.failure msg := by
  unfold parse_response
  rw [hp]
  show ∃ msg, validateParsed j = ParseOutcome.failure msg
  cases j with
  | jobj fields =>
    by_cases hall : requiredArtifactFields.all (fun f => hasKey fields f) = true
    · have hnone : firstMissingField fields = none := by
        unfold firstMissingField
        rw [List.find?_eq_none]
        intro f hf
        simp [List.all_eq_true.mp hall f hf]
      have hmeta : ∀ ms, jsonLookup fields "metadata" ≠ some (Json.jobj ms) := by
        intro ms hms
        rw [artifactWellFormed] at hbad
        simp only [hall, hms, Bool.true_and] at hbad
        exact absurd hbad (by decide)
      simp only [validateParsed]
      rw [hnone]
      cases hlook : jsonLookup fields "metadata" with
      | none => exact ⟨_, rfl⟩
      | some v =>
        cases v with
        | jobj ms => exact absurd hlook (hmeta ms)
        | jnull => exact ⟨_, rfl⟩
        | jbool b => exact ⟨_, rfl⟩
        | jnum n => exact ⟨_, rfl⟩
        | jstr s => exact ⟨_, rfl⟩
        | jarr es => exact ⟨_, rfl⟩
    · have hsome : (firstMissingField fields).isSome := by
        unfold firstMissingField
        rw [List.find?_isSome]
        have hfalse : requiredArtifactFields.all (fun f => hasKey fields f) = false :=
          Bool.not_eq_true _ ▸ hall
        obtain ⟨f, hf, hkey⟩ := List.all_eq_false.mp hfalse
        exact ⟨f, hf, by simp [Bool.not_eq_true _ ▸ hkey]⟩
      obtain ⟨f, hf⟩ := Option.isSome_iff_exists.mp hsome
      simp only [validateParsed]
      rw [hf]
      exact ⟨_, rfl⟩
  | jnull => exact ⟨_, rfl⟩
  | jbool b => exact ⟨_, rfl⟩
  | jnum n => exact ⟨_, rfl⟩
  | jstr s => exact ⟨_, rfl⟩
  | jarr es => exact ⟨_, rfl⟩

theorem claim_C3_witness :
    ∃ msg, parse_response jsonParse "\x7b\x7d" = ParseOutcome.failure msg :=
  claim_C3 jsonParse "\x7b\x7d" (Json.jobj []) rfl rfl

/-! ## Claim C5: gas estimation -/

/-- Claim C5 counterexample: a known contract type with an unknown
jurisdiction resolves to that type's base value (2,000,000 for insurance),
not to the escrow base value of 1,500,000 as the claim states for "any
unknown key". -/
theorem claim_C5_counterexample :
    estimate_gas "insurance" "brazil" = 2000000 ∧ (2000000 : Nat) ≠ 1500000 :=
  ⟨rfl, by decide⟩

/-- Claim C5 (amended): gas estimation resolves against the static two-level
table; insurance/eu gives exactly 2,200,000; an unknown contract type falls
back to 1,500,000 whatever the jurisdiction; a known contract type with a
jurisdiction not among its per-jurisdiction overrides falls back to that
type's own base value. -/
theorem claim_C5_amended :
    estimate_gas "insurance" "eu" = 2200000 ∧
    (∀ ct j : String, lowerStr ct ≠ "escrow" → lowerStr ct ≠ "insurance" →
      lowerStr ct ≠ "settlement" → estimate_gas ct j = 1500000) ∧
    (∀ j : String, lowerStr j ≠ "india" → lowerStr j ≠ "eu" → lowerStr j ≠ "us" →
      estimate_gas "escrow" j = 1500000 ∧ estimate_gas "insurance" j = 2000000 ∧
        estimate_gas "settlement" j = 1800000) := by
  refine ⟨rfl, ?_, ?_⟩
  · intro ct j h1 h2 h3
    unfold estimate_gas
    simp only [gasTable, alistGet]
    rw [if_neg (fun h => h1 h.symm), if_neg (fun h => h2 h.symm), if_neg (fun h => h3 h.symm)]
    rfl
  · intro j h1 h2 h3
    refine ⟨?_, ?_, ?_⟩
    · rw [show estimate_gas "escrow" j =
          (alistGet [("base", 1500000), ("india", 1600000), ("eu", 1700000), ("us", 1650000)]
            (lowerStr j)).getD 1500000 from rfl]
      by_cases hb : "base" = lowerStr j
      · simp only [alistGet, if_pos hb]
        rfl
      · simp only [alistGet]
        rw [if_neg hb, if_neg (fun h : "india" = lowerStr j => h1 h.symm),
          if_neg (fun h : "eu" = lowerStr j => h2 h.symm),
          if_neg (fun h : "us" = lowerStr j => h3 h.symm)]
        rfl
    · rw [show estimate_gas "insurance" j =
          (alistGet [("base", 2000000), ("india", 2100000), ("eu", 2200000), ("us", 2150000)]
            (lowerStr j)).getD 2000000 from rfl]
      by_cases hb : "base" = lowerStr j
      · simp only [alistGet, if_pos hb]
        rfl
      · simp only [alistGet]
        rw [if_neg hb, if_neg (fun h : "india" = lowerStr j => h1 h.symm),
          if_neg (fun h : "eu" = lowerStr j => h2 h.symm),
          if_neg (fun h : "us" = lowerStr j => h3 h.symm)]
        rfl
    · rw [show estimate_gas "settlement" j =
          (alistGet [("base", 1800000), ("india", 1900000), ("eu", 2000000), ("us", 1950000)]
            (lowerStr j)).getD 1800000 from rfl]
      by_cases hb : "base" = lowerStr j
      · simp only [alistGet, if_pos hb]
        rfl
      · simp only [alistGet]
        rw [if_neg hb, if_neg (fun h : "india" = lowerStr j => h1 h.symm),
          if_neg (fun h : "eu" = lowerStr j => h2 h.symm),
          if_neg (fun h : "us" = lowerStr j => h3 h.symm)]
        rfl

theorem claim_C5_witness :
    estimate_gas "token" "mars" = 1500000 ∧ estimate_gas "insurance" "asgard" = 2000000 :=
  ⟨claim_C5_amended.2.1 "token" "mars" (by decide) (by decide) (by decide),
   (claim_C5_amended.2.2 "asgard" (by decide) (by decide) (by decide)).2.1⟩

/-! ## Claim C6: invalid status values are rejected without mutation -/

/-- Claim C6: a status-update request whose status value is outside
draft/deployed/failed is answered with a 400 validation error and leaves the
store — hence every record and every field — untouched; the unrecognized
value is never stored. -/
theorem claim_C6 (store : Store) (contract_id : Nat) (p : StatusPayload) (now : Nat)
    (s : String) (hs : p.status = some s) (hvalid : s ∉ validStatuses) :
    update_contract_status_route store contract_id p now = (400, store) := by
  unfold update_contract_status_route
  rw [hs]
  by_cases he : s = ""
  · simp [he]
  · simp [he, hvalid]

theorem claim_C6_witness :
    ("pending" ∉ validStatuses) ∧
    update_contract_status_route (fun _ => none) 1
      ⟨some "pending", some "0xabc", none⟩ 0 = (400, fun _ => none) :=
  ⟨by decide,
   claim_C6 (fun _ => none) 1 ⟨some "pending", some "0xabc", none⟩ 0 "pending" rfl (by decide)⟩

/-! ## Claim C10: status updates preserve stored hashes and frame fields -/

/-- Claim C10: a successful status update on an existing record stores the
requested status and refreshes the update timestamp; a falsy (absent or
empty) transaction hash argument leaves the stored hash unchanged, likewise
for the contract address — a stored value is never cleared — and every other
field of the record is unmodified. -/
theorem claim_C10 (store : Store) (contract_id : Nat) (status : String)
    (tx addr : Option String) (now : Nat) (c : Contract)
    (hc : store contract_id = some c) :
    (update_contract_status store contract_id status tx addr now).1 = true ∧
    ∃ c', (update_contract_status store contract_id status tx addr now).2 contract_id = some c' ∧
      c'.status = status ∧ c'.updated_at = now ∧
      (optTruthy tx = false → c'.transaction_hash = c.transaction_hash) ∧
      (optTruthy addr = false → c'.contract_address = c.contract_address) ∧
      (optTruthy tx = true → c'.transaction_hash = tx) ∧
      (optTruthy addr = true → c'.contract_address = addr) ∧
      c'.id = c.id ∧ c'.jurisdiction = c.jurisdiction ∧ c'.contract_type = c.contract_type ∧
      c'.requirements = c.requirements ∧ c'.description = c.description ∧
      c'.payee_address = c.payee_address ∧ c'.payer_address = c.payer_address ∧
      c'.solidity_code = c.solidity_code ∧ c'.deploy_script = c.deploy_script ∧
      c'.tests = c.tests ∧ c'.contract_metadata = c.contract_metadata ∧
      c'.created_at = c.created_at := by
  have hstore : update_contract_status store contract_id status tx addr now =
      (true, fun x =>
        if x = contract_id then some (applyStatusUpdate c status tx addr now) else store x) := by
    unfold update_contract_status
    rw [hc]
  rw [hstore]
  refine ⟨rfl, applyStatusUpdate c status tx addr now, by simp, rfl, rfl, ?_, ?_, ?_, ?_,
    rfl, rfl, rfl, rfl, rfl, rfl, rfl, rfl, rfl, rfl, rfl, rfl⟩
  · intro h
    simp [applyStatusUpdate, h]
  · intro h
    simp [applyStatusUpdate, h]
  · intro h
    simp [applyStatusUpdate, h]
  · intro h
    simp [applyStatusUpdate, h]

theorem claim_C10_witness :
    (update_contract_status (fun x => if x = 1 then some sampleContract else none)
      1 "deployed" none none 5).1 = true :=
  (claim_C10 (fun x => if x = 1 then some sampleContract else none)
    1 "deployed" none none 5 sampleContract rfl).1

/-! ## Claim C1: draft records and stored hashes/addresses -/

/-- Invariant preserved by every status update whose target status is not
`draft`: a record in `draft` status carries neither hash nor address. -/
theorem reach_draft_invariant (ops : List UpdateOp) (c : Contract)
    (hops : ∀ op ∈ ops, op.status ≠ "draft")
    (hc : c.status = "draft" → c.transaction_hash = none ∧ c.contract_address = none) :
    (reachAfter c ops).status = "draft" →
      (reachAfter c ops).transaction_hash = none ∧ (reachAfter c ops).contract_address = none := by
  induction ops generalizing c with
  | nil => exact hc
  | cons op t ih =>
    show (reachAfter (applyStatusUpdate c op.status op.transaction_hash op.contract_address op.now) t).status = "draft" → _
    refine ih _ (fun op' h' => hops op' (List.mem_cons_of_mem _ h')) ?_
    intro hdraft
    exact absurd hdraft (hops op (List.mem_cons_self op t))

/-- Claim C1 counterexample: the claim fails on the code.  A freshly
generated record is in `draft` status with no hash; one status-update
operation using the route-accepted status value "draft" together with a
transaction hash yields a record whose status is still `draft` while a
non-empty transaction hash is stored. -/
theorem claim_C1_counterexample :
    "draft" ∈ validStatuses ∧
    (generate_contract (fun _ => "") [] ⟨"", "", "", Json.jobj []⟩ 1 0).status = "draft" ∧
    (generate_contract (fun _ => "") [] ⟨"", "", "", Json.jobj []⟩ 1 0).transaction_hash = none ∧
    (reachAfter (generate_contract (fun _ => "") [] ⟨"", "", "", Json.jobj []⟩ 1 0)
      [⟨"draft", some "0xabc123", none, 1⟩]).status = "draft" ∧
    (reachAfter (generate_contract (fun _ => "") [] ⟨"", "", "", Json.jobj []⟩ 1 0)
      [⟨"draft", some "0xabc123", none, 1⟩]).transaction_hash = some "0xabc123" :=
  ⟨by decide, rfl, rfl, rfl, rfl⟩

/-- Claim C1 (amended): a generated record starts in `draft` status with no
transaction hash and no deployed address, and as long as no status-update
operation in the sequence targets the status `draft`, any reachable record
whose status is `draft` carries neither a transaction hash nor a deployed
address. -/
theorem claim_C1_amended (dumps : Json → String) (p : Payload) (res : GenResult)
    (cid now : Nat) (ops : List UpdateOp)
    (hops : ∀ op ∈ ops, op.status ≠ "draft")
    (hdraft : (reachAfter (generate_contract dumps p res cid now) ops).status = "draft") :
    (reachAfter (generate_contract dumps p res cid now) ops).transaction_hash = none ∧
    (reachAfter (generate_contract dumps p res cid now) ops).contract_address = none :=
  reach_draft_invariant ops _ hops (fun _ => ⟨rfl, rfl⟩) hdraft

theorem claim_C1_witness :
    (reachAfter (generate_contract (fun _ => "") [] ⟨"", "", "", Json.jobj []⟩ 1 0)
      []).transaction_hash = none ∧
    (reachAfter (generate_contract (fun _ => "") [] ⟨"", "", "", Json.jobj []⟩ 1 0)
      []).contract_address = none :=
  claim_C1_amended (fun _ => "") [] ⟨"", "", "", Json.jobj []⟩ 1 0 [] (by simp) rfl

/-! ## Claim C4: deployment-data derivation and metadata parsing -/

/-- Claim C4 counterexample: for an existing record whose stored metadata is
present but not parseable as JSON, `get_deployment_data` returns no
deployment data at all (the enclosing `except` turns the `json.loads` error
into `None`), contradicting the claim that deployment data is still returned
with an empty metadata object. -/
theorem claim_C4_counterexample :
    unparseableMetaContract.contract_metadata = some "not json" ∧
    jsonParse "not json" = none ∧
    get_deployment_data jsonParse (some unparseableMetaContract) = none :=
  ⟨rfl, rfl, rfl⟩

/-- Claim C4 (amended): deriving deployment data for an existing record never
raises.  When the stored metadata is absent or empty, an empty object is
used, deployment data is returned, and the contract name defaults to
"GeneratedContract"; when the metadata parses to a key/value object the data
is returned with that object, defaulting the name when absent; when the
metadata is present but unparseable, no deployment data is returned (`None`)
rather than an exception. -/
theorem claim_C4_amended (pj : String → Option Json) (c : Contract) :
    (optTruthy c.contract_metadata = false →
      ∃ d, get_deployment_data pj (some c) = some d ∧ d.metadata = Json.jobj [] ∧
        d.contract_name = Json.jstr "GeneratedContract") ∧
    (∀ s ms, c.contract_metadata = some s → s ≠ "" → pj s = some (Json.jobj ms) →
      ∃ d, get_deployment_data pj (some c) = some d ∧ d.metadata = Json.jobj ms ∧
        (jsonLookup ms "contract_name" = none → d.contract_name = Json.jstr "GeneratedContract") ∧
        (∀ v, jsonLookup ms "contract_name" = some v → d.contract_name = v)) ∧
    (∀ s, c.contract_metadata = some s → s ≠ "" → pj s = none →
      get_deployment_data pj (some c) = none) := by
  refine ⟨?_, ?_, ?_⟩
  · intro h
    simp only [get_deployment_data]
    rw [h]
    exact ⟨_, rfl, rfl, rfl⟩
  · intro s ms hs hne hpj
    have htr : optTruthy c.contract_metadata = true := by
      rw [hs]
      simp [optTruthy, hne]
    simp only [get_deployment_data]
    rw [htr]
    simp only [if_true]
    rw [hs]
    simp only [Option.getD_some]
    rw [hpj]
    refine ⟨_, rfl, rfl, ?_, ?_⟩
    · intro hnone
      simp [hnone]
    · intro v hv
      simp [hv]
  · intro s hs hne hpj
    have htr : optTruthy c.contract_metadata = true := by
      rw [hs]
      simp [optTruthy, hne]
    simp only [get_deployment_data]
    rw [htr]
    simp only [if_true]
    rw [hs]
    simp only [Option.getD_some]
    rw [hpj]

theorem claim_C4_witness :
    ∃ d, get_deployment_data jsonParse (some sampleContract) = some d ∧
      d.metadata = Json.jobj [] ∧
      (jsonLookup [] "contract_name" = none → d.contract_name = Json.jstr "GeneratedContract") ∧
      (∀ v, jsonLookup [] "contract_name" = some v → d.contract_name = v) :=
  (claim_C4_amended jsonParse sampleContract).2.1 "\x7b\x7d" [] rfl (by decide) rfl

/-! ## Claim C9: membership checks fire only for non-empty values -/

/-- Claim C9: when the jurisdiction field is missing or empty, validation
emits the missing-required-field error for jurisdiction and the
membership-check component contributes nothing (no invalid-jurisdiction
error listing valid options); likewise for the contract type. -/
theorem claim_C9 (rules : RuleSet) (p : Payload) :
    (pyGetD p "jurisdiction" = "" →
      "Missing required field: jurisdiction" ∈ (validate_request rules p).errors ∧
      jurisdictionErrors rules p = []) ∧
    (pyGetD p "contract_type" = "" →
      "Missing required field: contract_type" ∈ (validate_request rules p).errors ∧
      contractTypeErrors rules p = []) := by
  constructor
  · intro h
    constructor
    · simp [validate_request, validationErrors, missingFieldErrors, h]
    · simp [jurisdictionErrors, h, show lowerStr "" = "" from rfl]
  · intro h
    constructor
    · simp [validate_request, validationErrors, missingFieldErrors, h]
    · simp [contractTypeErrors, h, show lowerStr "" = "" from rfl]

theorem claim_C9_witness :
    "Missing required field: jurisdiction" ∈
      (validate_request ⟨[("india", ["jurisdiction"])], ["escrow"]⟩
        [("contract_type", "escrow")]).errors ∧
    jurisdictionErrors ⟨[("india", ["jurisdiction"])], ["escrow"]⟩
      [("contract_type", "escrow")] = [] :=
  (claim_C9 ⟨[("india", ["jurisdiction"])], ["escrow"]⟩ [("contract_type", "escrow")]).1 rfl

/-! ## Claim C8: address-shape check and warnings -/

theorem isPrefixOf_iff_append (sub l : List Char) :
    sub.isPrefixOf l = true ↔ ∃ r, l = sub ++ r := by
  rw [ List.isPrefixOf_iff_prefix]
  constructor
  · rintro ⟨t, ht⟩
    exact ⟨t, ht.symm⟩
  · rintro ⟨t, ht⟩
    exact ⟨t, ht.symm⟩

theorem contains_iff_mem_chars (l : List Char) (c : Char) : l.contains c = true ↔ c ∈ l := by
  simp [List.contains_eq_any_beq]

theorem pyGet_falsy_iff (p : Payload) (k : String) :
    (pyGet p k = none ∨ pyGet p k = some "") ↔ pyGetD p k = "" := by
  unfold pyGetD
  cases pyGet p k <;> simp

theorem missingFieldErrors_congr (p p' : Payload)
    (ht : ∀ k, pyGetD p k = "" ↔ pyGetD p' k = "") :
    missingFieldErrors p = missingFieldErrors p' := by
  unfold missingFieldErrors
  rw [if_congr (ht "jurisdiction") rfl rfl, if_congr (ht "contract_type") rfl rfl,
    if_congr (ht "requirements") rfl rfl]

theorem jurisdictionErrors_congr (rules : RuleSet) (p p' : Payload)
    (hv : pyGetD p "jurisdiction" = pyGetD p' "jurisdiction") :
    jurisdictionErrors rules p = jurisdictionErrors rules p' := by
  unfold jurisdictionErrors
  rw [hv]

theorem contractTypeErrors_congr (rules : RuleSet) (p p' : Payload)
    (hv : pyGetD p "contract_type" = pyGetD p' "contract_type") :
    contractTypeErrors rules p = contractTypeErrors rules p' := by
  unfold contractTypeErrors
  rw [hv]

theorem requiredFieldErrors_congr (rules : RuleSet) (p p' : Payload)
    (hv : pyGetD p "jurisdiction" = pyGetD p' "jurisdiction")
    (ht : ∀ k, pyGetD p k = "" ↔ pyGetD p' k = "") :
    requiredFieldErrors rules p = requiredFieldErrors rules p' := by
  unfold requiredFieldErrors
  rw [hv]
  cases halist : alistGet rules.jurisdictions (lowerStr (pyGetD p' "jurisdiction")) with
  | none => rfl
  | some required =>
    apply List.filterMap_congr
    intro f _
    exact if_congr
      ((pyGet_falsy_iff p f).trans ((ht f).trans (pyGet_falsy_iff p' f).symm)) rfl rfl

/-- Claim C8: an address passes `_is_valid_ethereum_address` iff it starts
with "0x", has total length 42 and its remaining characters are hexadecimal
digits (either case); a present address that fails the check contributes a
warning, never an error — validity is determined by the error list alone and
does not depend on the address values beyond their truthiness. -/
theorem claim_C8 (address : String) (rules : RuleSet) (p : Payload) :
    (is_valid_ethereum_address address = true ↔
      (address.data.take 2 = ['0', 'x'] ∧ address.length = 42 ∧
        ∀ c ∈ address.data.drop 2, c ∈ hexDigits)) ∧
    ((validate_request rules p).valid = true ↔ (validate_request rules p).errors = []) ∧
    (pyGetD p "payee_address" ≠ "" →
      is_valid_ethereum_address (pyGetD p "payee_address") = false →
      "Invalid Ethereum address format for payee_address" ∈ (validate_request rules p).warnings) ∧
    (pyGetD p "payer_address" ≠ "" →
      is_valid_ethereum_address (pyGetD p "payer_address") = false →
      "Invalid Ethereum address format for payer_address" ∈ (validate_request rules p).warnings) ∧
    (∀ p' : Payload,
      (∀ k, k ≠ "payee_address" → k ≠ "payer_address" → pyGet p k = pyGet p' k) →
      (∀ k, pyGetD p k = "" ↔ pyGetD p' k = "") →
      (validate_request rules p).valid = (validate_request rules p').valid) := by
  refine ⟨?_, ?_, ?_, ?_, ?_⟩
  · constructor
    · intro h
      unfold is_valid_ethereum_address at h
      by_cases he : address = ""
      · rw [if_pos he] at h
        exact absurd h (by decide)
      · rw [if_neg he, Bool.and_eq_true, Bool.and_eq_true] at h
        obtain ⟨⟨hpre, hlen⟩, hall⟩ := h
        obtain ⟨t, ht⟩ := (isPrefixOf_iff_append _ _).mp hpre
        refine ⟨by rw [ht]; rfl, (by simpa using hlen), ?_⟩
        intro ch hch
        exact (contains_iff_mem_chars _ _).mp (List.all_eq_true.mp hall ch hch)
    · rintro ⟨htake, hlen, hmem⟩
      unfold is_valid_ethereum_address
      have he : address ≠ "" := by
        intro h0
        rw [h0] at htake
        exact absurd htake (by decide)
      rw [if_neg he, Bool.and_eq_true, Bool.and_eq_true]
      refine ⟨⟨?_, by simp [hlen]⟩, ?_⟩
      · apply (isPrefixOf_iff_append _ _).mpr
        refine ⟨address.data.drop 2, ?_⟩
        rw [show ("0x".data : List Char) = ['0', 'x'] from rfl, ← htake]
        exact (List.take_append_drop 2 address.data).symm
      · rw [List.all_eq_true]
        intro ch hch
        exact (contains_iff_mem_chars _ _).mpr (hmem ch hch)
  · simp [validate_request, List.isEmpty_iff]
  · intro h1 h2
    simp [validate_request, addressWarnings, h1, h2]
  · intro h1 h2
    simp [validate_request, addressWarnings, h1, h2]
  · intro p' hv ht
    have hj : pyGetD p "jurisdiction" = pyGetD p' "jurisdiction" := by
      unfold pyGetD
      rw [hv "jurisdiction" (by decide) (by decide)]
    have hct : pyGetD p "contract_type" = pyGetD p' "contract_type" := by
      unfold pyGetD
      rw [hv "contract_type" (by decide) (by decide)]
    have e1 := missingFieldErrors_congr p p' ht
    have e2 := jurisdictionErrors_congr rules p p' hj
    have e3 := contractTypeErrors_congr rules p p' hct
    have e4 := requiredFieldErrors_congr rules p p' hj ht
    simp [validate_request, validationErrors, e1, e2, e3, e4]

theorem claim_C8_witness :
    is_valid_ethereum_address "0x1111111111111111111111111111111111111111" = true ∧
    "Invalid Ethereum address format for payee_address" ∈
      (validate_request ⟨[("india", [])], ["escrow"]⟩ [("payee_address", "bogus")]).warnings :=
  ⟨(claim_C8 "0x1111111111111111111111111111111111111111" ⟨[("india", [])], ["escrow"]⟩
      [("payee_address", "bogus")]).1.mpr ⟨rfl, rfl, by decide⟩,
   (claim_C8 "0x" ⟨[("india", [])], ["escrow"]⟩ [("payee_address", "bogus")]).2.2.1
     (by decide) (by decide)⟩

/-! ## Claim C7: fenced and bare JSON parse identically (lemma suite) -/

theorem trimLeft_cons_space (c : Char) (h : isSpaceChar c = true) (l : List Char) :
    trimLeft (c :: l) = trimLeft l := by
  simp [trimLeft, List.dropWhile_cons, h]

theorem trimLeft_cons_keep (c : Char) (h : isSpaceChar c = false) (l : List Char) :
    trimLeft (c :: l) = c :: l := by
  simp [trimLeft, List.dropWhile_cons, h]

theorem trimRight_snoc_space (c : Char) (h : isSpaceChar c = true) (l : List Char) :
    trimRight (l ++ [c]) = trimRight l := by
  unfold trimRight
  rw [List.reverse_append]
  simp [List.dropWhile_cons, h]

theorem trimRight_snoc_keep (c : Char) (h : isSpaceChar c = false) (l : List Char) :
    trimRight (l ++ [c]) = l ++ [c] := by
  unfold trimRight
  rw [List.reverse_append]
  simp [List.dropWhile_cons, h]

theorem trimLeft_append (l m : List Char) :
    trimLeft (l ++ m) = if trimLeft l = [] then trimLeft m else trimLeft l ++ m := by
  induction l with
  | nil => simp [trimLeft]
  | cons c t ih =>
    cases h : isSpaceChar c with
    | true =>
      rw [List.cons_append, trimLeft_cons_space c h, trimLeft_cons_space c h, ih]
    | false =>
      rw [List.cons_append, trimLeft_cons_keep c h, trimLeft_cons_keep c h]
      simp

theorem pyStrip_cons_space (c : Char) (h : isSpaceChar c = true) (l : List Char) :
    pyStrip (c :: l) = pyStrip l := by
  unfold pyStrip
  rw [trimLeft_cons_space c h]

theorem pyStrip_snoc_space (c : Char) (h : isSpaceChar c = true) (l : List Char) :
    pyStrip (l ++ [c]) = pyStrip l := by
  unfold pyStrip
  rw [trimLeft_append]
  by_cases he : trimLeft l = []
  · rw [if_pos he, he, show trimLeft [c] = ([] : List Char) from by
      simp [trimLeft, List.dropWhile_cons, h]]
  · rw [if_neg he, trimRight_snoc_space c h]

theorem wrapFence_cons (J : List Char) :
    wrapFence J =
      btick :: ([btick, btick, 'j', 's', 'o', 'n', '\n'] ++ (J ++ ['\n', btick, btick, btick])) := by
  simp [wrapFence, tickJson, ticks]

theorem pyStrip_wrapFence (J : List Char) : pyStrip (wrapFence J) = wrapFence J := by
  rw [wrapFence_cons]
  unfold pyStrip
  rw [trimLeft_cons_keep btick (by decide)]
  rw [show btick :: ([btick, btick, 'j', 's', 'o', 'n', '\n'] ++ (J ++ ['\n', btick, btick, btick]))
      = (btick :: ([btick, btick, 'j', 's', 'o', 'n', '\n'] ++ (J ++ ['\n', btick, btick]))) ++ [btick]
      from by simp]
  exact trimRight_snoc_keep btick (by decide) _

theorem pyFind_eq_none_iff (l sub : List Char) : pyFind l sub = none ↔ ¬ occursIn sub l := by
  induction l with
  | nil =>
    by_cases h : sub.isPrefixOf ([] : List Char) = true
    · rw [show pyFind [] sub = some 0 from by simp [pyFind, h]]
      obtain ⟨r, hr⟩ := (isPrefixOf_iff_append _ _).mp h
      constructor
      · intro hc
        exact Option.noConfusion hc
      · intro hnocc
        exact absurd ⟨[], r, by simpa using hr⟩ hnocc
    · rw [show pyFind [] sub = none from by simp [pyFind, h]]
      constructor
      · rintro - ⟨a, b, hab⟩
        apply h
        have hab' := hab.symm
        simp only [List.append_eq_nil] at hab'
        rw [hab'.1.2]
        rfl
      · intro _
        rfl
  | cons c t ih =>
    by_cases h : sub.isPrefixOf (c :: t) = true
    · rw [show pyFind (c :: t) sub = some 0 from by simp [pyFind, h]]
      obtain ⟨r, hr⟩ := (isPrefixOf_iff_append _ _).mp h
      constructor
      · intro hc
        exact Option.noConfusion hc
      · intro hnocc
        exact absurd ⟨[], r, by simpa using hr⟩ hnocc
    · rw [show pyFind (c :: t) sub = (pyFind t sub).map (· + 1) from by simp [pyFind, h]]
      rw [Option.map_eq_none', ih]
      constructor
      · intro hno hocc
        rcases hocc with ⟨a, b, hab⟩
        cases a with
        | nil =>
          apply h
          apply (isPrefixOf_iff_append _ _).mpr
          exact ⟨b, by simpa using hab⟩
        | cons x a' =>
          rw [List.cons_append, List.cons_append] at hab
          injection hab with h1 h2
          exact hno ⟨a', b, h2⟩
      · intro hno hocc
        rcases hocc with ⟨a, b, hab⟩
        exact hno ⟨c :: a, b, by simp [hab]⟩

theorem occursIn_ticks_of_tickJson (l : List Char) (h : occursIn tickJson l) :
    occursIn ticks l := by
  rcases h with ⟨a, b, hab⟩
  refine ⟨a, ['j', 's', 'o', 'n'] ++ b, ?_⟩
  rw [hab]
  simp [tickJson]

theorem exists_append_trimLeft (l : List Char) : ∃ u, l = u ++ trimLeft l := by
  induction l with
  | nil => exact ⟨[], rfl⟩
  | cons c t ih =>
    cases h : isSpaceChar c with
    | true =>
      obtain ⟨u, hu⟩ := ih
      exact ⟨c :: u, by rw [trimLeft_cons_space c h, List.cons_append, ← hu]⟩
    | false => exact ⟨[], by rw [trimLeft_cons_keep c h, List.nil_append]⟩

theorem exists_trimRight_append (l : List Char) : ∃ v, l = trimRight l ++ v := by
  obtain ⟨u, hu⟩ := exists_append_trimLeft l.reverse
  refine ⟨u.reverse, ?_⟩
  have h2 := congrArg List.reverse hu
  rw [List.reverse_reverse, List.reverse_append] at h2
  exact h2

theorem occursIn_of_pyStrip (sub J : List Char) (h : occursIn sub (pyStrip J)) :
    occursIn sub J := by
  obtain ⟨v, hv⟩ := exists_trimRight_append (trimLeft J)
  obtain ⟨u, hu⟩ := exists_append_trimLeft J
  rcases h with ⟨a, b, hab⟩
  unfold pyStrip at hab
  refine ⟨u ++ a, b ++ v, ?_⟩
  rw [hu, hv, hab]
  simp [List.append_assoc]

theorem sub_before_newline (sub a b : List Char) (hnl : '\n' ∉ sub)
    (h : sub.isPrefixOf (a ++ '\n' :: b) = true) : ∃ r, a = sub ++ r := by
  obtain ⟨t, ht⟩ := (isPrefixOf_iff_append _ _).mp h
  by_cases hlen : sub.length ≤ a.length
  · have h1 : (a ++ '\n' :: b).take sub.length = sub := by
      rw [ht]
      exact List.take_left sub t
    have h2 : (a ++ '\n' :: b).take sub.length = a.take sub.length := by
      rw [List.take_append_eq_append_take, show sub.length - a.length = 0 from by omega]
      simp
    have h3 : sub = a.take sub.length := h1.symm.trans h2
    have h4 := List.take_append_drop sub.length a
    rw [← h3] at h4
    exact ⟨a.drop sub.length, h4.symm⟩
  · exfalso
    have h1 : (a ++ '\n' :: b).take sub.length
        = a ++ ('\n' :: b).take (sub.length - a.length) := by
      rw [List.take_append_eq_append_take, List.take_of_length_le (by omega)]
    have h2 : sub = a ++ ('\n' :: b).take (sub.length - a.length) := by
      rw [← h1, ht]
      exact (List.take_left sub t).symm
    rw [show sub.length - a.length = (sub.length - a.length - 1) + 1 from by omega,
      List.take_succ_cons] at h2
    apply hnl
    rw [h2]
    exact List.mem_append_right a (List.mem_cons_self _ _)

theorem pyFind_across_newline (sub a b : List Char) (hne : sub ≠ []) (hnl : '\n' ∉ sub)
    (hnocc : ¬ occursIn sub a) :
    pyFind (a ++ '\n' :: b) sub = (pyFind b sub).map (· + (a.length + 1)) := by
  induction a with
  | nil =>
    have hpf : sub.isPrefixOf ('\n' :: b) = false := by
      cases sub with
      | nil => exact absurd rfl hne
      | cons s ss =>
        have hs : (s == '\n') = false := by
          have hne2 : s ≠ '\n' := fun he => hnl (he ▸ List.mem_cons_self s ss)
          simp [hne2]
        simp [List.isPrefixOf, hs]
    rw [List.nil_append,
      show pyFind ('\n' :: b) sub = (pyFind b sub).map (· + 1) from by simp [pyFind, hpf]]
    rfl
  | cons c a' ih =>
    have hsub : ¬ occursIn sub a' := fun hocc => by
      rcases hocc with ⟨x, y, hxy⟩
      exact hnocc ⟨c :: x, y, by simp [hxy]⟩
    have hpf : sub.isPrefixOf (c :: (a' ++ '\n' :: b)) = false := by
      cases hx : sub.isPrefixOf (c :: (a' ++ '\n' :: b)) with
      | false => rfl
      | true =>
        exfalso
        obtain ⟨r, hr⟩ := sub_before_newline sub (c :: a') b hnl hx
        exact hnocc ⟨[], r, by simp [hr]⟩
    rw [List.cons_append,
      show pyFind (c :: (a' ++ '\n' :: b)) sub = (pyFind (a' ++ '\n' :: b) sub).map (· + 1)
        from by simp [pyFind, hpf]]
    rw [ih hsub]
    cases pyFind b sub with
    | none => rfl
    | some i => rfl

theorem not_occursIn_ticks_cons (J : List Char) (h : ¬ occursIn ticks J) :
    ¬ occursIn ticks ('\n' :: J) := by
  rintro ⟨a, b, hab⟩
  cases a with
  | nil =>
    rw [List.nil_append,
      show (ticks ++ b) = btick :: ([btick, btick] ++ b) from by simp [ticks]] at hab
    injection hab with h1 h2
    exact absurd h1 (by decide)
  | cons x a' =>
    rw [List.cons_append, List.cons_append] at hab
    injection hab with h1 h2
    exact h ⟨a', b, h2⟩

theorem pyFind_wrapFence_tickJson (J : List Char) :
    pyFind (wrapFence J) tickJson = some 0 := by
  rw [wrapFence_cons]
  simp [pyFind]
  exact ⟨'\n' :: (J ++ ['\n', btick, btick, btick]), by simp [tickJson, ticks]⟩

theorem pyFindFrom_wrapFence_ticks (J : List Char) (hnocc : ¬ occursIn ticks J) :
    pyFindFrom (wrapFence J) ticks 7 = some (J.length + 9) := by
  unfold pyFindFrom
  have hdrop : (wrapFence J).drop 7 = '\n' :: (J ++ '\n' :: ticks) := by
    rw [show (7 : Nat) = tickJson.length from rfl]
    unfold wrapFence
    exact List.drop_left tickJson _
  rw [hdrop, show ('\n' :: (J ++ '\n' :: ticks)) = (('\n' :: J) ++ '\n' :: ticks) from by simp]
  rw [pyFind_across_newline ticks ('\n' :: J) ticks (by decide) (by decide)
    (not_occursIn_ticks_cons J hnocc)]
  rw [show pyFind ticks ticks = some 0 from rfl]
  simp only [Option.map_some', List.length_cons]
  exact congrArg some (by omega)

theorem pySlice_wrapFence (J : List Char) :
    pySlice (wrapFence J) ((7 : Nat) : Int) ((J.length + 9 : Nat) : Int)
      = '\n' :: (J ++ ['\n']) := by
  unfold pySlice sliceIdx
  have hlen : (wrapFence J).length = J.length + 12 := by
    simp [wrapFence, tickJson, ticks]
  rw [if_neg (by omega : ¬((7 : Nat) : Int) < 0),
    if_neg (by omega : ¬((J.length + 9 : Nat) : Int) < 0)]
  rw [Int.toNat_natCast, Int.toNat_natCast, hlen]
  rw [min_eq_left (by omega), min_eq_left (by omega)]
  have hdrop : (wrapFence J).drop 7 = '\n' :: (J ++ '\n' :: ticks) := by
    rw [show (7 : Nat) = tickJson.length from rfl]
    unfold wrapFence
    exact List.drop_left tickJson _
  rw [hdrop, show J.length + 9 - 7 = (J.length + 1) + 1 from by omega, List.take_succ_cons]
  rw [List.take_append_eq_append_take, List.take_of_length_le (by omega),
    show J.length + 1 - J.length = 1 from by omega]
  simp [ticks]

theorem extract_wrapFence (J : List Char) (hJ : pyFind J ticks = none) :
    extractCandidate (wrapFence J) = pyStrip J := by
  have hnocc : ¬ occursIn ticks J := (pyFind_eq_none_iff J ticks).mp hJ
  have hfind := pyFind_wrapFence_tickJson J
  have hfindInt : pyFindInt (wrapFence J) tickJson = 0 := by
    unfold pyFindInt
    rw [hfind]
    rfl
  have hfromInt : pyFindFromInt (wrapFence J) ticks 7 = ((J.length + 9 : Nat) : Int) := by
    unfold pyFindFromInt
    rw [pyFindFrom_wrapFence_ticks J hnocc]
  unfold extractCandidate
  rw [pyStrip_wrapFence J, hfind, hfindInt,
    show ((0 : Int) + 7).toNat = 7 from by decide, hfromInt]
  simp only [Option.isSome_some, if_true]
  rw [pySlice_wrapFence J, pyStrip_cons_space '\n' (by decide) (J ++ ['\n']),
    pyStrip_snoc_space '\n' (by decide) J]

theorem extract_no_ticks (J : List Char) (hJ : pyFind J ticks = none) :
    extractCandidate J = pyStrip J := by
  have hnocc : ¬ occursIn ticks J := (pyFind_eq_none_iff J ticks).mp hJ
  have h1 : pyFind (pyStrip J) ticks = none :=
    (pyFind_eq_none_iff _ _).mpr (fun h => hnocc (occursIn_of_pyStrip _ _ h))
  have h2 : pyFind (pyStrip J) tickJson = none :=
    (pyFind_eq_none_iff _ _).mpr
      (fun h => hnocc (occursIn_of_pyStrip _ _ (occursIn_ticks_of_tickJson _ h)))
  unfold extractCandidate
  rw [h1, h2]
  simp

/-- Claim C7 counterexample: an explicit JSON object text containing a fence
marker inside a string literal parses differently bare and wrapped — the
bare response raises a missing-field error (the extraction pulls "\x7b\x7d"
out of the string literal), while the wrapped response self-heals to the
fallback artifact. -/
theorem claim_C7_counterexample :
    jsonParse "\x7b\"a\": \"\x60\x60\x60json \x7b\x7d \x60\x60\x60\"\x7d" =
      some (Json.jobj [("a", Json.jstr "\x60\x60\x60json \x7b\x7d \x60\x60\x60")]) ∧
    parse_response jsonParse "\x7b\"a\": \"\x60\x60\x60json \x7b\x7d \x60\x60\x60\"\x7d" ≠
      parse_response jsonParse
        (String.mk (wrapFence ("\x7b\"a\": \"\x60\x60\x60json \x7b\x7d \x60\x60\x60\"\x7d").data)) := by
  constructor
  · rfl
  · intro h
    have h1 : parse_response jsonParse "\x7b\"a\": \"\x60\x60\x60json \x7b\x7d \x60\x60\x60\"\x7d" =
        ParseOutcome.failure (parseFailMsg "Missing required field: solidity_code") := rfl
    have h2 : parse_response jsonParse
        (String.mk (wrapFence ("\x7b\"a\": \"\x60\x60\x60json \x7b\x7d \x60\x60\x60\"\x7d").data)) =
        ParseOutcome.success fallbackResponse := rfl
    rw [h1, h2] at h
    exact ParseOutcome.noConfusion h

/-- Claim C7 (amended): for every JSON text J containing no fence marker,
parsing J wrapped in a JSON-tagged fenced block yields the same structured
result as parsing J bare, whatever the behaviour of the JSON-parsing
collaborator. -/
theorem claim_C7_amended (pj : String → Option Json) (J : List Char)
    (hJ : pyFind J ticks = none) :
    parse_response pj (String.mk (wrapFence J)) = parse_response pj (String.mk J) := by
  unfold parse_response
  rw [show (String.mk (wrapFence J)).data = wrapFence J from rfl,
    show (String.mk J).data = J from rfl, extract_wrapFence J hJ, extract_no_ticks J hJ]

theorem claim_C7_witness :
    pyFind ("\x7b\"x\": 1\x7d").data ticks = none ∧
    parse_response jsonParse (String.mk (wrapFence ("\x7b\"x\": 1\x7d").data)) =
      parse_response jsonParse "\x7b\"x\": 1\x7d" :=
  ⟨rfl, claim_C7_amended jsonParse ("\x7b\"x\": 1\x7d").data rfl⟩
